import Mathlib

/-!
# drf-haystack: formal model of the field-resolution and filter-translation logic

This file shallowly embeds the parts of the `drf-haystack` package that the
specification describes: the query-parameter-to-filter translator
(`HaystackFilter` and its geospatial / boost variants), the multi-index
serializer's field resolution, and the `more-like-this` viewset route.

The repository snapshot provides `drf_haystack/viewsets.py` together with the
test-suite (`tests/test_filters.py`, `tests/test_serializers.py`); the modules
`drf_haystack/filters.py`, `drf_haystack/serializers.py` and
`drf_haystack/generics.py` are not part of the snapshot, so their behaviour is
modelled from the specification's words (each such definition says so in its
doc comment).  `viewsets.py` is embedded from the source directly.

The search backend itself is out of scope for the specification ("treated as
black boxes"), so the atomic lookup predicate (how a single
`field__lookup=token` pair matches one search result) is a parameter of the
model; all claims are about the composition logic built on top of it.
-/

namespace DrfHaystack

/-- A search result, for filtering purposes: an association list from indexed
field names to their stored values. -/
abbrev Result := List (String × String)

/-- Value of a field on a result; missing fields read as the empty string. -/
def getVal (r : Result) (f : String) : String := (r.lookup f).getD ""

/-- `dropPref sep l` removes `sep` from the front of `l`, or fails if `sep`
is not a prefix of `l`. -/
def dropPref : List Char → List Char → Option (List Char)
  | [], l => some l
  | _ :: _, [] => none
  | c :: cs, d :: ds => if c = d then dropPref cs ds else none

/-- Character-level worker for `pySplit`; the `Nat` fuel (at least the length
of the scanned list plus one) makes the recursion structural. -/
def splitAuxC (sep : List Char) : Nat → List Char → List Char → List (List Char)
  | 0, _, acc => [acc.reverse]
  | _ + 1, [], acc => [acc.reverse]
  | fuel + 1, c :: rest, acc =>
    match dropPref sep (c :: rest) with
    | some l2 => acc.reverse :: splitAuxC sep fuel l2 []
    | none => splitAuxC sep fuel rest (c :: acc)

/-- Python's `str.split(sep)` for a non-empty separator: the list of chunks of
`s` between non-overlapping occurrences of `sep`, scanned left to right
(`"a,b".split(",") = ["a", "b"]`, `",".split(",") = ["", ""]`). -/
def pySplit (s sep : String) : List String :=
  match sep.data with
  | [] => [s]
  | _ => (splitAuxC sep.data (s.data.length + 1) s.data []).map String.mk

/-- A query parameter key, parsed: base field name, whether the `__not`
negation keyword was present, and the remaining `__lookup` suffix (if any). -/
structure ParsedParam where
  field : String
  negated : Bool
  lookup : Option String
deriving DecidableEq, Repr

/-- Modelled from the spec: `drf_haystack/filters.py` is missing from the
snapshot.  The spec's external interface lists the query-parameter forms
`field`, `field__lookup`, `field__not`, `field__not__lookup`; accordingly the
key is split on `__`, the first segment is the field name, a second segment
equal to the negation keyword `not` marks the parameter as negated, and any
remaining segments form the backend lookup. -/
def parseParamKey (key : String) : ParsedParam :=
  match pySplit key "__" with
  | [] => ⟨key, false, none⟩
  | f :: rest =>
    match rest with
    | "not" :: rest2 =>
      ⟨f, true, if rest2.isEmpty then none else some (String.intercalate "__" rest2)⟩
    | [] => ⟨f, false, none⟩
    | _ => ⟨f, false, some (String.intercalate "__" rest)⟩

/-- The filter-relevant serializer configuration: inclusion list, exclusion
list, extra searchable fields and the alias table, as read off the
serializer's `Meta` class by the filter backend. -/
structure FilterMeta where
  fields : List String
  exclude : List String
  search_fields : List String
  field_aliases : List (String × String)
deriving Repr

/-- Modelled from the spec: alias resolution (`drf_haystack/filters.py` is
missing).  A field alias is "an alternate query-parameter name mapped to an
underlying indexed field": if the base name appears in the alias table it is
replaced by the underlying field name, otherwise it is kept. -/
def resolveAlias (meta : FilterMeta) (f : String) : String :=
  (meta.field_aliases.lookup f).getD f

/-- Modelled from the spec: the filter backend "honors inclusion/exclusion
lists" (`drf_haystack/filters.py` is missing).  A parameter is dropped (and
silently ignored, per the behaviour the test-suite documents for excluded
fields) when an inclusion list is configured and the resolved field is not in
it, when the resolved field is in the exclusion list, or when the value is
empty. -/
def isDropped (meta : FilterMeta) (field : String) (value : String) : Bool :=
  ((!meta.fields.isEmpty || !meta.search_fields.isEmpty) &&
    !((meta.fields ++ meta.search_fields).contains field))
  || meta.exclude.contains field || value == ""

/-- One backend filter expression: a field, an optional lookup, and the list
of values the field is matched against (disjunctively). -/
structure FilterTerm where
  field : String
  lookup : Option String
  tokens : List String
deriving DecidableEq, Repr

/-- Modelled from the spec: `HaystackFilter.build_filter`
(`drf_haystack/filters.py` is missing).  Each query parameter is parsed,
alias-resolved and checked against the inclusion/exclusion lists; a surviving
parameter's value is split on the configured lookup separator into the values
of one `FilterTerm`.  Positive terms and negated (`__not`) terms are collected
separately. -/
def buildFilter (meta : FilterMeta) (sep : String) (params : List (String × String)) :
    List FilterTerm × List FilterTerm :=
  params.foldr
    (fun kv acc =>
      let p := parseParamKey kv.1
      let f := resolveAlias meta p.field
      if isDropped meta f kv.2 then acc
      else
        let t : FilterTerm := ⟨f, p.lookup, pySplit kv.2 sep⟩
        if p.negated then (acc.1, t :: acc.2) else (t :: acc.1, acc.2))
    ([], [])

/-- The atomic backend match: given a lookup (none = the default operator),
a stored field value and one query token, does the result match?  The search
backend is a black box to the spec, so this is a parameter of the model. -/
abbrev MatchFn := Option String → String → String → Bool

/-- A filter term holds of a result when SOME of its values matches the
result's field under the term's lookup (values of one field are OR'ed). -/
def evalTerm (m : MatchFn) (r : Result) (t : FilterTerm) : Bool :=
  t.tokens.any (fun tok => m t.lookup (getVal r t.field) tok)

/-- Modelled from the spec: `HaystackFilter.filter_queryset`
(`drf_haystack/filters.py` is missing).  Filter expressions of distinct
parameters are AND'ed; negated terms are applied as an exclusion: a result is
kept when every positive term holds of it and, if any negated terms were
given, not all of them hold of it. -/
def filterQueryset (m : MatchFn) (meta : FilterMeta) (sep : String)
    (params : List (String × String)) (data : List Result) : List Result :=
  let built := buildFilter meta sep params
  data.filter (fun r =>
    built.1.all (evalTerm m r) &&
    (built.2.isEmpty || !(built.2.all (evalTerm m r))))

/-- The `Meta` configuration of `Serializer1` in the filter test-suite:
the concrete inclusion list and alias table used for concrete runs. -/
def serializer1Meta : FilterMeta :=
  { fields := ["text", "firstname", "lastname", "full_name", "autocomplete"]
    exclude := []
    search_fields := []
    field_aliases := [("q", "autocomplete"), ("name", "full_name")] }

/-- A concrete atomic matcher for concrete runs: every lookup is plain
equality of the stored value with the token. -/
def eqMatch : MatchFn := fun _ v tok => v == tok

/-- A search index: its name and the fields its schema declares. -/
structure Index where
  name : String
  fields : List String
deriving DecidableEq, Repr

/-- A configuration error raised by the package (Django's
`ImproperlyConfigured` exception, carrying its message). -/
inductive ConfigError
  | improperlyConfigured (msg : String)
deriving DecidableEq, Repr

instance {ε α : Type} [DecidableEq ε] [DecidableEq α] : DecidableEq (Except ε α)
  | .error a, .error b =>
    if h : a = b then .isTrue (by rw [h]) else .isFalse (fun hc => h (Except.error.inj hc))
  | .error _, .ok _ => .isFalse (fun hc => Except.noConfusion hc)
  | .ok _, .error _ => .isFalse (fun hc => Except.noConfusion hc)
  | .ok a, .ok b =>
    if h : a = b then .isTrue (by rw [h]) else .isFalse (fun hc => h (Except.ok.inj hc))

/-- The serializer's `Meta` options; every attribute can be left unset. -/
structure MetaOpts where
  index_classes : Option (List Index)
  serializers : Option (List (String × String))
  fields : Option (List String)
  exclude : Option (List String)
deriving DecidableEq, Repr

/-- A serializer class: its class name and its optional `Meta` options. -/
structure SerializerConfig where
  name : String
  meta : Option MetaOpts
deriving DecidableEq, Repr

/-- Modelled from the spec: the required-metadata checks of
`HaystackSerializer` (`drf_haystack/serializers.py` is missing).  Per the
spec's error-handling design, missing required metadata is reported as an
explicit configuration-error exception naming the offending class or
attribute: a serializer without a `Meta` class, or whose `Meta` sets neither
`index_classes` nor `serializers`, is rejected. -/
def validateSerializer (cfg : SerializerConfig) : Except ConfigError MetaOpts :=
  match cfg.meta with
  | none => .error (.improperlyConfigured (cfg.name ++ " must implement a Meta class."))
  | some m =>
    match m.index_classes, m.serializers with
    | none, none =>
      .error (.improperlyConfigured
        ("You must set either the 'index_classes' or 'serializers' " ++
          "attribute on the serializer Meta class."))
    | _, _ => .ok m

/-- The union of the field names declared by a list of indices, first
occurrence first. -/
def allIndexFields (idxs : List Index) : List String :=
  idxs.foldl (fun acc i => acc ++ i.fields.filter (fun f => !acc.contains f)) []

/-- Modelled from the spec: field-set resolution of `HaystackSerializer`
(`drf_haystack/serializers.py` is missing).  "Configuration must
unambiguously determine field set — specifying both an inclusion list and an
exclusion list simultaneously is invalid and must fail at configuration
time"; otherwise the field set is the inclusion list when given, and the
index-derived fields minus the exclusion list when not. -/
def resolvedFields (m : MetaOpts) : Except ConfigError (List String) :=
  match m.fields, m.exclude with
  | some _, some _ =>
    .error (.improperlyConfigured "Cannot set both `fields` and `exclude`.")
  | some fs, none => .ok fs
  | none, some ex =>
    .ok ((allIndexFields (m.index_classes.getD [])).filter (fun f => !ex.contains f))
  | none, none => .ok (allIndexFields (m.index_classes.getD []))

/-- A search result as the serializer sees it: the name of its originating
index and its stored field values. -/
structure SearchResult where
  indexName : String
  values : List (String × String)
deriving DecidableEq, Repr

/-- The index a result originated from, among the serializer's configured
index classes. -/
def owningIndex (m : MetaOpts) (r : SearchResult) : Option Index :=
  (m.index_classes.getD []).find? (fun i => i.name == r.indexName)

/-- Modelled from the spec: per-result serialization of `HaystackSerializer`
(`drf_haystack/serializers.py` is missing).  The output is "an ordered
mapping from field name to value, constructed per-result; fields absent on a
given result's owning index are omitted, never present as empty/null
fillers": of the resolved field set, exactly the fields the owning index
declares are emitted, paired with the result's stored values. -/
def serializeResult (cfg : SerializerConfig) (r : SearchResult) :
    Except ConfigError (List (String × String)) :=
  match validateSerializer cfg with
  | .error e => .error e
  | .ok m =>
    match resolvedFields m with
    | .error e => .error e
    | .ok fs =>
      let idxFields := ((owningIndex m r).map Index.fields).getD []
      .ok ((fs.filter (fun f => idxFields.contains f)).map (fun f => (f, getVal r.values f)))

/-- A highlighting serializer's relevant configuration: its class name and
its optional highlighter class. -/
structure HighlighterConfig where
  name : String
  highlighter_class : Option String
deriving DecidableEq, Repr

/-- Modelled from the spec: `HighlighterMixin.get_highlighter`
(`drf_haystack/serializers.py` is missing).  A highlighting serializer whose
`highlighter_class` is `None` is rejected with a configuration-error
exception naming the offending class. -/
def getHighlighter (cfg : HighlighterConfig) : Except ConfigError String :=
  match cfg.highlighter_class with
  | none =>
    .error (.improperlyConfigured
      (cfg.name ++ " is missing a highlighter_class. Define " ++ cfg.name ++
        ".highlighter_class, or override " ++ cfg.name ++ ".get_highlighter()."))
  | some h => .ok h

/-- A value error raised for malformed numeric filter parameters (Python's
`ValueError`, carrying its message). -/
inductive FilterError
  | valueError (msg : String)
deriving DecidableEq, Repr

/-- Whether a character is a decimal digit. -/
def isDigitChar (c : Char) : Bool := '0' ≤ c && c ≤ '9'

/-- Whether the string converts to a float: an optional sign followed by a
decimal numeral with an optional fractional part (the forms the filter
parameters use; e.g. `59.923396`, `10`, `-1.5`, but not `i am not numeric`).
-/
def isFloatString (s : String) : Bool :=
  let l :=
    match s.data with
    | '-' :: rest => rest
    | '+' :: rest => rest
    | l => l
  match splitAuxC ['.'] (l.length + 1) l [] with
  | [ip] => !ip.isEmpty && ip.all isDigitChar
  | [ip, fp] => (!ip.isEmpty || !fp.isEmpty) && ip.all isDigitChar && fp.all isDigitChar
  | _ => false

/-- Modelled from the spec: `HaystackGEOSpatialFilter`
(`drf_haystack/filters.py` is missing).  The expected query parameters are a
`unit=value` parameter whose name is a distance unit, and `from`, a
comma-separated latitude/longitude pair.  When `from` is supplied its
components are converted to floats — a non-numeric component surfaces as a
value error per the spec's error-handling design — and when a distance unit
is also supplied, the queryset is restricted to the results within the given
distance of the point (`dwithin`); without a distance unit no restriction is
applied.  The distance predicate itself belongs to the search backend and is
a parameter of the model. -/
def geoFilter (units : List String)
    (within : List String → List (String × String) → Result → Bool)
    (params : List (String × String)) (data : List Result) :
    Except FilterError (List Result) :=
  let distance := params.filter (fun kv => units.contains kv.1)
  match params.lookup "from" with
  | none => .ok data
  | some fv =>
    let comps := pySplit fv ","
    if comps.all isFloatString then
      if distance.isEmpty then .ok data
      else .ok (data.filter (within comps distance))
    else
      .error (.valueError
        "Cannot convert `from=latitude,longitude` query parameter to float values.")

/-- Modelled from the spec: `HaystackBoostFilter`
(`drf_haystack/filters.py` is missing).  The `boost` query parameter carries
a `term,factor` pair; the factor must convert to float, otherwise a value
error surfaces per the spec's error-handling design.  The boost itself is
executed by the backend; the model returns the parsed pair. -/
def parseBoost (params : List (String × String)) :
    Except FilterError (Option (String × String)) :=
  match params.lookup "boost" with
  | none => .ok none
  | some v =>
    match pySplit v "," with
    | [term, factor] =>
      if isFloatString factor then .ok (some (term, factor))
      else
        .error (.valueError
          ("Cannot convert boost to float value. " ++
            "Make sure to provide a numerical boost value."))
    | _ => .ok none

/-- Routing metadata of a DRF `detail_route` decorator: HTTP methods, URL
path suffix, and whether the route is attached under the detail URL
(`{prefix}/{pk}/{url_path}/`). -/
structure RouteInfo where
  methods : List String
  url_path : String
  detail : Bool
deriving DecidableEq, Repr

/-- The `@detail_route` decorator on `HaystackViewSet.more_like_this`
(src/drf_haystack/viewsets.py, line 19): a GET route at url_path
`more-like-this` under the detail URL. -/
def moreLikeThisRoute : RouteInfo := ⟨["get"], "more-like-this", true⟩

/-- An HTTP response: a paginated or a plain rendering of serialized data. -/
inductive Resp (σ : Type)
  | paginated (body : σ)
  | plain (body : σ)
deriving DecidableEq, Repr

/-- A search hit, as returned by `self.get_object()`: it carries the
underlying database object in its `object` attribute. -/
structure SearchHit (α : Type) where
  object : α

/-- `HaystackViewSet.more_like_this` (src/drf_haystack/viewsets.py, lines
20-36), with the framework collaborators passed as parameters: filter the
queryset, compute the more-like-this queryset from it for the object of the
hit identified by `pk`, then return a paginated response of the serialized
page when the paginator yields one, and a plain response of the serialized
more-like-this queryset otherwise. -/
def more_like_this {α σ : Type}
    (filter_queryset : List α → List α) (get_queryset : List α)
    (mlt : List α → α → List α) (get_object : SearchHit α)
    (paginate_queryset : List α → Option (List α))
    (serialize : List α → σ) : Resp σ :=
  let queryset := filter_queryset get_queryset
  let mlt_queryset := mlt queryset get_object.object
  match paginate_queryset mlt_queryset with
  | some page => .paginated (serialize page)
  | none => .plain (serialize mlt_queryset)

example : parseParamKey "firstname" = ⟨"firstname", false, none⟩ := by decide
example : parseParamKey "firstname__startswith" = ⟨"firstname", false, some "startswith"⟩ := by
  decide
example : parseParamKey "name__not__contains" = ⟨"name", true, some "contains"⟩ := by decide
example : parseParamKey "text__not" = ⟨"text", true, none⟩ := by decide
example :
    buildFilter serializer1Meta "," [("lastname", "Hickman,Hood")] =
      ([⟨"lastname", none, ["Hickman", "Hood"]⟩], []) := by decide

/-! ## Helper lemmas about the filter translator -/

lemma resolveAlias_eq_self {meta : FilterMeta} {f : String}
    (h : meta.field_aliases.lookup f = none) : resolveAlias meta f = f := by
  simp [resolveAlias, h]

lemma buildFilter_nil (meta : FilterMeta) (sep : String) :
    buildFilter meta sep [] = ([], []) := rfl

lemma buildFilter_cons_dropped {meta : FilterMeta} {sep k v : String}
    {ps : List (String × String)}
    (h : isDropped meta (resolveAlias meta (parseParamKey k).field) v = true) :
    buildFilter meta sep ((k, v) :: ps) = buildFilter meta sep ps := by
  simp [buildFilter, h]

lemma buildFilter_cons_pos {meta : FilterMeta} {sep k v f : String}
    {lk : Option String} {ps : List (String × String)}
    (hp : parseParamKey k = ⟨f, false, lk⟩)
    (ha : meta.field_aliases.lookup f = none)
    (hd : isDropped meta f v = false) :
    buildFilter meta sep ((k, v) :: ps) =
      (⟨f, lk, pySplit v sep⟩ :: (buildFilter meta sep ps).1,
        (buildFilter meta sep ps).2) := by
  simp [buildFilter, hp, resolveAlias, ha, hd]

lemma buildFilter_cons_neg {meta : FilterMeta} {sep k v f : String}
    {lk : Option String} {ps : List (String × String)}
    (hp : parseParamKey k = ⟨f, true, lk⟩)
    (ha : meta.field_aliases.lookup f = none)
    (hd : isDropped meta f v = false) :
    buildFilter meta sep ((k, v) :: ps) =
      ((buildFilter meta sep ps).1,
        ⟨f, lk, pySplit v sep⟩ :: (buildFilter meta sep ps).2) := by
  simp [buildFilter, hp, resolveAlias, ha, hd]

/-- With only plain, alias-free, filterable parameters, the built filter is
one positive term per parameter and no negated terms. -/
lemma buildFilter_simple {meta : FilterMeta} {sep : String}
    {params : List (String × String)}
    (h : ∀ p ∈ params, parseParamKey p.1 = ⟨p.1, false, none⟩ ∧
        meta.field_aliases.lookup p.1 = none ∧ isDropped meta p.1 p.2 = false) :
    buildFilter meta sep params =
      (params.map (fun p => ⟨p.1, none, pySplit p.2 sep⟩), []) := by
  induction params with
  | nil => rfl
  | cons q ps ih =>
    obtain ⟨k, v⟩ := q
    obtain ⟨h1, h2, h3⟩ := h (k, v) (List.mem_cons_self _ _)
    rw [buildFilter_cons_pos h1 h2 h3, ih (fun p hp => h p (List.mem_cons_of_mem _ hp))]
    simp

lemma all_map_comp {α β : Type} (l : List α) (f : α → β) (p : β → Bool) :
    (l.map f).all p = l.all (fun a => p (f a)) := by
  induction l with
  | nil => rfl
  | cons a as ih => simp [ih]

lemma filterQueryset_nil (m : MatchFn) (meta : FilterMeta) (sep : String)
    (data : List Result) : filterQueryset m meta sep [] data = data := by
  simp [filterQueryset, buildFilter_nil]

/-- A single plain positive parameter filters by the disjunction of its
values under its lookup. -/
lemma filterQueryset_single_pos {meta : FilterMeta} {k v f : String}
    {lk : Option String} (m : MatchFn) (sep : String) (data : List Result)
    (hp : parseParamKey k = ⟨f, false, lk⟩)
    (ha : meta.field_aliases.lookup f = none)
    (hd : isDropped meta f v = false) :
    filterQueryset m meta sep [(k, v)] data =
      data.filter (fun r => (pySplit v sep).any (fun tok => m lk (getVal r f) tok)) := by
  simp [filterQueryset, buildFilter_cons_pos hp ha hd, buildFilter_nil, evalTerm]

/-- A single plain negated parameter filters by the negation of the
disjunction of its values under its lookup. -/
lemma filterQueryset_single_neg {meta : FilterMeta} {k v f : String}
    {lk : Option String} (m : MatchFn) (sep : String) (data : List Result)
    (hp : parseParamKey k = ⟨f, true, lk⟩)
    (ha : meta.field_aliases.lookup f = none)
    (hd : isDropped meta f v = false) :
    filterQueryset m meta sep [(k, v)] data =
      data.filter (fun r => !((pySplit v sep).any (fun tok => m lk (getVal r f) tok))) := by
  simp [filterQueryset, buildFilter_cons_neg hp ha hd, buildFilter_nil, evalTerm]

/-- Association lists built by pairing each key with a computed value have no
entry for keys outside the key list. -/
lemma lookup_map_pair_eq_none {l : List String} {g : String → String} {f : String}
    (h : f ∉ l) : (l.map (fun x => (x, g x))).lookup f = none := by
  induction l with
  | nil => rfl
  | cons a as ih =>
    have hne : (f == a) = false := by
      simp only [List.mem_cons, not_or] at h
      simp [h.1]
    simp only [List.map_cons, List.lookup, hne]
    exact ih (fun hf => h (List.mem_cons_of_mem _ hf))

/-! ## Concrete data for witnesses -/

/-- A concrete person record (cf. the `mockperson` fixture). -/
def personWalkerHickman : Result :=
  [("firstname", "Walker"), ("lastname", "Hickman"), ("full_name", "Walker Hickman")]

/-- A concrete person record. -/
def personBrunoHood : Result :=
  [("firstname", "Bruno"), ("lastname", "Hood"), ("full_name", "Bruno Hood")]

/-- A concrete person record. -/
def personJohnHood : Result :=
  [("firstname", "John"), ("lastname", "Hood"), ("full_name", "John Hood")]

/-- A concrete person record. -/
def personJohnMcClane : Result :=
  [("firstname", "John"), ("lastname", "McClane"), ("full_name", "John McClane")]

/-- A concrete data set of person records. -/
def personsData : List Result :=
  [personWalkerHickman, personBrunoHood, personJohnHood, personJohnMcClane]

/-- The `Meta` configuration of `Serializer2` in the filter test-suite: no
inclusion list, `lastname` excluded. -/
def serializer2Meta : FilterMeta :=
  { fields := [], exclude := ["lastname"], search_fields := [], field_aliases := [] }

/-! ## The claims -/

/-- Claim C1: for every request whose query string names several distinct
filterable fields (plain, alias-free parameters), the resulting backend
filter conjoins (ANDs) the predicates of distinct fields, and within each
field the values obtained by splitting on the configured lookup separator are
disjoined (ORed): the filtered queryset is exactly the data filtered by the
conjunction over parameters of the disjunction over that parameter's
values. -/
theorem filter_and_across_fields_or_within_field (m : MatchFn) (meta : FilterMeta)
    (sep : String) (params : List (String × String)) (data : List Result)
    (h : ∀ p ∈ params, parseParamKey p.1 = ⟨p.1, false, none⟩ ∧
        meta.field_aliases.lookup p.1 = none ∧ isDropped meta p.1 p.2 = false) :
    filterQueryset m meta sep params data =
      data.filter (fun r =>
        params.all (fun p =>
          (pySplit p.2 sep).any (fun tok => m none (getVal r p.1) tok))) := by
  simp only [filterQueryset, buildFilter_simple h]
  apply List.filter_congr
  intro r _
  simp only [List.isEmpty_nil, Bool.true_or, Bool.and_true]
  rw [all_map_comp]
  simp [evalTerm]

/-- Witness for C1, at the spec's own example: filtering
`lastname in {Hickman, Hood}` and `firstname in {Walker, Bruno}` (lookup
separator `,`) returns exactly the results matching
`(lastname=Hickman OR lastname=Hood) AND (firstname=Walker OR firstname=Bruno)`. -/
theorem filter_and_across_fields_or_within_field_witness :
    filterQueryset eqMatch serializer1Meta ","
        [("lastname", "Hickman,Hood"), ("firstname", "Walker,Bruno")] personsData =
      [personWalkerHickman, personBrunoHood] :=
  (filter_and_across_fields_or_within_field eqMatch serializer1Meta ","
      [("lastname", "Hickman,Hood"), ("firstname", "Walker,Bruno")] personsData
      (by decide)).trans (by decide)

/-- Claim C6: for a filterable field `f`, the query-parameter forms `f`,
`f__lookup`, `f__not` and `f__not__lookup` map to the corresponding backend
predicate: the bare and `__lookup` forms keep exactly the matching results,
the `__not` and `__not__lookup` forms keep exactly the non-matching results,
and the `__not` result set is the complement of the positive result set
within the full data set. -/
theorem lookup_and_negation_forms (m : MatchFn) (meta : FilterMeta)
    (sep k0 k1 k2 k3 v f lk : String) (data : List Result)
    (hp0 : parseParamKey k0 = ⟨f, false, none⟩)
    (hp1 : parseParamKey k1 = ⟨f, false, some lk⟩)
    (hp2 : parseParamKey k2 = ⟨f, true, none⟩)
    (hp3 : parseParamKey k3 = ⟨f, true, some lk⟩)
    (ha : meta.field_aliases.lookup f = none)
    (hd : isDropped meta f v = false) :
    filterQueryset m meta sep [(k0, v)] data =
        data.filter (fun r => (pySplit v sep).any (fun tok => m none (getVal r f) tok)) ∧
    filterQueryset m meta sep [(k1, v)] data =
        data.filter (fun r => (pySplit v sep).any (fun tok => m (some lk) (getVal r f) tok)) ∧
    filterQueryset m meta sep [(k2, v)] data =
        data.filter (fun r => !((pySplit v sep).any (fun tok => m none (getVal r f) tok))) ∧
    filterQueryset m meta sep [(k3, v)] data =
        data.filter (fun r => !((pySplit v sep).any (fun tok => m (some lk) (getVal r f) tok))) ∧
    ∀ r, r ∈ filterQueryset m meta sep [(k2, v)] data ↔
        r ∈ data ∧ r ∉ filterQueryset m meta sep [(k0, v)] data := by
  refine ⟨filterQueryset_single_pos m sep data hp0 ha hd,
    filterQueryset_single_pos m sep data hp1 ha hd,
    filterQueryset_single_neg m sep data hp2 ha hd,
    filterQueryset_single_neg m sep data hp3 ha hd, ?_⟩
  intro r
  rw [filterQueryset_single_pos m sep data hp0 ha hd,
    filterQueryset_single_neg m sep data hp2 ha hd]
  cases hany : (pySplit v sep).any (fun tok => m none (getVal r f) tok) <;>
    simp [List.mem_filter, hany]

/-- Witness for C6, on the keys `firstname`, `firstname__startswith`,
`firstname__not`, `firstname__not__startswith` under `Serializer1`'s
configuration. -/
theorem lookup_and_negation_forms_witness :
    filterQueryset eqMatch serializer1Meta "," [("firstname__not", "John")] personsData =
      [personWalkerHickman, personBrunoHood] :=
  ((lookup_and_negation_forms eqMatch serializer1Meta ","
      "firstname" "firstname__startswith" "firstname__not" "firstname__not__startswith"
      "John" "firstname" "startswith" personsData
      (by decide) (by decide) (by decide) (by decide) (by decide)
      (by decide)).2.2.1).trans (by decide)

/-- Claim C7: a query parameter using an alias name declared in the
serializer's `field_aliases` mapping (with or without a `__lookup` suffix)
filters on the underlying indexed field exactly as if the parameter had used
the field's real name. -/
theorem alias_filters_as_real_field (m : MatchFn) (meta : FilterMeta)
    (sep aliasKey realKey a f : String) (neg : Bool) (lk : Option String)
    (hpa : parseParamKey aliasKey = ⟨a, neg, lk⟩)
    (hpr : parseParamKey realKey = ⟨f, neg, lk⟩)
    (hal : meta.field_aliases.lookup a = some f)
    (hfr : meta.field_aliases.lookup f = none) :
    ∀ (v : String) (ps : List (String × String)) (data : List Result),
      filterQueryset m meta sep ((aliasKey, v) :: ps) data =
        filterQueryset m meta sep ((realKey, v) :: ps) data := by
  intro v ps data
  have hb : buildFilter meta sep ((aliasKey, v) :: ps) =
      buildFilter meta sep ((realKey, v) :: ps) := by
    simp [buildFilter, hpa, hpr, resolveAlias, hal, hfr]
  simp [filterQueryset, hb]

/-- Witness for C7: under `Serializer1`'s alias table (`name` →
`full_name`), the parameter `name__contains` filters exactly as
`full_name__contains` does. -/
theorem alias_filters_as_real_field_witness :
    filterQueryset eqMatch serializer1Meta "," [("name__contains", "John McClane")] personsData =
      filterQueryset eqMatch serializer1Meta ","
        [("full_name__contains", "John McClane")] personsData :=
  alias_filters_as_real_field eqMatch serializer1Meta ","
    "name__contains" "full_name__contains" "name" "full_name" false (some "contains")
    (by decide) (by decide) (by decide) (by decide)
    "John McClane" [] personsData

/-- Claim C9: a query parameter naming a field outside the serializer's
resolved field set (for example a field in the `Meta` `exclude` list) is
silently ignored: the result set equals that of the same request without the
parameter, and when it is the only parameter the full data set is
returned. -/
theorem unknown_field_param_ignored (m : MatchFn) (meta : FilterMeta)
    (sep key value : String)
    (h : isDropped meta (resolveAlias meta (parseParamKey key).field) value = true) :
    (∀ (ps : List (String × String)) (data : List Result),
      filterQueryset m meta sep ((key, value) :: ps) data =
        filterQueryset m meta sep ps data) ∧
    ∀ data : List Result, filterQueryset m meta sep [(key, value)] data = data := by
  have hstep : ∀ (ps : List (String × String)) (data : List Result),
      filterQueryset m meta sep ((key, value) :: ps) data =
        filterQueryset m meta sep ps data := by
    intro ps data
    simp [filterQueryset, buildFilter_cons_dropped h]
  exact ⟨hstep, fun data => (hstep [] data).trans (filterQueryset_nil m meta sep data)⟩

/-- Witness for C9: under `Serializer2`'s configuration (which excludes
`lastname`), filtering on `lastname=Hood` returns the full data set. -/
theorem unknown_field_param_ignored_witness :
    filterQueryset eqMatch serializer2Meta "," [("lastname", "Hood")] personsData =
      personsData :=
  (unknown_field_param_ignored eqMatch serializer2Meta "," "lastname" "Hood"
      (by decide)).2 personsData

/-! ## Serializer fixtures for witnesses -/

/-- The person index of the test-suite and the fields its schema declares. -/
def mockPersonIndex : Index :=
  ⟨"MockPersonIndex",
    ["text", "firstname", "lastname", "full_name", "autocomplete", "description"]⟩

/-- The pet index of the test-suite and the fields its schema declares. -/
def mockPetIndex : Index :=
  ⟨"MockPetIndex", ["text", "name", "species", "autocomplete"]⟩

/-- The `Meta` options of the multi-index `Serializer1` of the serializer
test-suite: both indices, with an inclusion list mixing person and pet
fields. -/
def multiMetaOpts : MetaOpts :=
  { index_classes := some [mockPersonIndex, mockPetIndex]
    serializers := none
    fields := some ["text", "firstname", "lastname", "name", "species", "autocomplete"]
    exclude := none }

/-- The multi-index serializer configuration built on `multiMetaOpts`. -/
def multiSerializerCfg : SerializerConfig := ⟨"Serializer1", some multiMetaOpts⟩

/-- A pet search result: it originates from the pet index and carries no
person fields. -/
def petResult : SearchResult :=
  ⟨"MockPetIndex", [("text", "Zane"), ("name", "Zane"), ("species", "Dog"),
    ("autocomplete", "Zane")]⟩

/-- The serialized output of `petResult` under `multiSerializerCfg`. -/
def petOutput : List (String × String) :=
  [("text", "Zane"), ("name", "Zane"), ("species", "Dog"), ("autocomplete", "Zane")]

/-- The `Meta` options of `Serializer3` of the serializer test-suite: both an
inclusion list and an exclusion list (invalid). -/
def conflictMetaOpts : MetaOpts :=
  { index_classes := some [mockPersonIndex]
    serializers := none
    fields := some ["some_field"]
    exclude := some ["another_field"] }

/-- The serializer configuration built on the conflicting options. -/
def conflictSerializerCfg : SerializerConfig := ⟨"Serializer3", some conflictMetaOpts⟩

/-- `Meta` options whose `index_classes` and `serializers` are both unset. -/
def emptyMetaOpts : MetaOpts :=
  { index_classes := none, serializers := none, fields := none, exclude := none }

/-- Claim C2: every search result serialized by a multi-index serializer
carries only fields belonging to its originating index: every key of the
output mapping is a field of the result's owning index, and a field absent
from the owning index has no entry in the output mapping at all (in
particular it is never emitted with an empty or null value). -/
theorem serializer_omits_fields_not_on_owning_index
    (cfg : SerializerConfig) (m : MetaOpts) (r : SearchResult)
    (out : List (String × String)) (f : String)
    (hv : validateSerializer cfg = .ok m)
    (hout : serializeResult cfg r = .ok out) :
    (∀ kv ∈ out, kv.1 ∈ (((owningIndex m r).map Index.fields).getD [])) ∧
    (f ∉ (((owningIndex m r).map Index.fields).getD []) → out.lookup f = none) := by
  simp only [serializeResult, hv] at hout
  cases hres : resolvedFields m with
  | error e => rw [hres] at hout; exact absurd hout (by simp)
  | ok fs =>
    rw [hres] at hout
    have hout2 : (fs.filter
        (fun f => (((owningIndex m r).map Index.fields).getD []).contains f)).map
          (fun f => (f, getVal r.values f)) = out := by
      simpa using hout
    constructor
    · intro kv hkv
      rw [← hout2] at hkv
      simp only [List.mem_map, List.mem_filter] at hkv
      obtain ⟨x, ⟨_, hx⟩, rfl⟩ := hkv
      simpa using hx
    · intro hf
      rw [← hout2]
      apply lookup_map_pair_eq_none
      intro hmem
      exact hf (by simpa using (List.mem_filter.mp hmem).2)

/-- Witness for C2: under the multi-index configuration, the pet result is
serialized with no `firstname` entry (neither value nor empty filler), while
its own keys are pet-index fields. -/
theorem serializer_omits_fields_not_on_owning_index_witness :
    List.lookup "firstname" petOutput = none :=
  (serializer_omits_fields_not_on_owning_index multiSerializerCfg multiMetaOpts
      petResult petOutput "firstname" (by decide) (by decide)).2 (by decide)

/-- Claim C3: a serializer configuration that sets both an inclusion list
(`fields`) and an exclusion list (`exclude`) in its `Meta` class is rejected
with `ImproperlyConfigured` and the message
"Cannot set both `fields` and `exclude`." at field-resolution time, and every
per-result serialization under it fails uniformly with that same
configuration error (nothing is deferred to per-result serialization). -/
theorem fields_and_exclude_conflict_rejected
    (cfg : SerializerConfig) (m : MetaOpts) (fs ex : List String)
    (hv : validateSerializer cfg = .ok m)
    (hf : m.fields = some fs) (he : m.exclude = some ex) :
    resolvedFields m =
      .error (.improperlyConfigured "Cannot set both `fields` and `exclude`.") ∧
    ∀ r : SearchResult, serializeResult cfg r =
      .error (.improperlyConfigured "Cannot set both `fields` and `exclude`.") := by
  have h1 : resolvedFields m =
      .error (.improperlyConfigured "Cannot set both `fields` and `exclude`.") := by
    simp only [resolvedFields, hf, he]
  refine ⟨h1, fun r => ?_⟩
  simp only [serializeResult, hv, h1]

/-- Witness for C3, at `Serializer3`'s configuration. -/
theorem fields_and_exclude_conflict_rejected_witness :
    serializeResult conflictSerializerCfg petResult =
      .error (.improperlyConfigured "Cannot set both `fields` and `exclude`.") :=
  (fields_and_exclude_conflict_rejected conflictSerializerCfg conflictMetaOpts
      ["some_field"] ["another_field"] (by decide) (by decide) (by decide)).2 petResult

/-- Claim C4: missing required serializer metadata surfaces as an explicit
`ImproperlyConfigured` error naming the offending class or attribute: a
serializer with no `Meta` class, a `Meta` class setting neither
`index_classes` nor `serializers`, and a highlighting serializer whose
highlighter class is `None` are each rejected with the corresponding
message. -/
theorem missing_metadata_raises_improperly_configured :
    (∀ name : String, validateSerializer ⟨name, none⟩ =
        .error (.improperlyConfigured (name ++ " must implement a Meta class."))) ∧
    (∀ (cfg : SerializerConfig) (m : MetaOpts), cfg.meta = some m →
        m.index_classes = none → m.serializers = none →
        validateSerializer cfg = .error (.improperlyConfigured
          ("You must set either the 'index_classes' or 'serializers' " ++
            "attribute on the serializer Meta class."))) ∧
    (∀ hcfg : HighlighterConfig, hcfg.highlighter_class = none →
        getHighlighter hcfg = .error (.improperlyConfigured
          (hcfg.name ++ " is missing a highlighter_class. Define " ++ hcfg.name ++
            ".highlighter_class, or override " ++ hcfg.name ++ ".get_highlighter()."))) := by
  refine ⟨fun name => rfl, fun cfg m hm hi hs => ?_, fun hcfg hh => ?_⟩
  · simp only [validateSerializer, hm, hi, hs]
  · simp only [getHighlighter, hh]

/-- Witness for C4, at the test-suite's `Serializer1` (no `Meta`),
`Serializer2` (no `index_classes`/`serializers`) and the highlighting
serializer with `highlighter_class = None`. -/
theorem missing_metadata_raises_improperly_configured_witness :
    validateSerializer ⟨"Serializer1", none⟩ =
      .error (.improperlyConfigured "Serializer1 must implement a Meta class.") ∧
    validateSerializer ⟨"Serializer2", some emptyMetaOpts⟩ =
      .error (.improperlyConfigured
        ("You must set either the 'index_classes' or 'serializers' " ++
          "attribute on the serializer Meta class.")) ∧
    getHighlighter ⟨"Serializer3", none⟩ =
      .error (.improperlyConfigured
        ("Serializer3 is missing a highlighter_class. Define " ++
          "Serializer3.highlighter_class, or override Serializer3.get_highlighter().")) :=
  ⟨missing_metadata_raises_improperly_configured.1 "Serializer1",
    (missing_metadata_raises_improperly_configured.2.1
        ⟨"Serializer2", some emptyMetaOpts⟩ emptyMetaOpts rfl rfl rfl).trans (by decide),
    (missing_metadata_raises_improperly_configured.2.2 ⟨"Serializer3", none⟩ rfl).trans
      (by decide)⟩

/-- A concrete trivial distance predicate for concrete runs. -/
def trivialWithin : List String → List (String × String) → Result → Bool :=
  fun _ _ _ => true

/-- Claim C5: a filter-parameter value that must be numeric but is not raises
a `ValueError` to the caller: a non-numeric coordinate component in the
geospatial `from` parameter makes `geoFilter` fail with a value error, and a
non-numeric boost factor in the `boost` parameter makes `parseBoost` fail
with a value error. -/
theorem non_numeric_params_raise_value_error :
    (∀ (units : List String)
        (within : List String → List (String × String) → Result → Bool)
        (params : List (String × String)) (data : List Result) (fv c : String),
      params.lookup "from" = some fv → c ∈ pySplit fv "," → isFloatString c = false →
      geoFilter units within params data = .error (.valueError
        "Cannot convert `from=latitude,longitude` query parameter to float values.")) ∧
    (∀ (params : List (String × String)) (v term factor : String),
      params.lookup "boost" = some v → pySplit v "," = [term, factor] →
      isFloatString factor = false →
      parseBoost params = .error (.valueError
        ("Cannot convert boost to float value. " ++
          "Make sure to provide a numerical boost value."))) := by
  constructor
  · intro units within params data fv c hfrom hc hnc
    have hall : (pySplit fv ",").all isFloatString = false := by
      cases hall : (pySplit fv ",").all isFloatString with
      | false => rfl
      | true => rw [List.all_eq_true.mp hall c hc] at hnc; exact absurd hnc (by simp)
    simp [geoFilter, hfrom, hall]
  · intro params v term factor hboost hsplit hnum
    simp [parseBoost, hboost, hsplit, hnum]

/-- Witness for C5, at the test-suite's failing inputs
`from=i am not numeric,10.739370` (with `km=1`) and
`boost=bruno,i am not numeric!`. -/
theorem non_numeric_params_raise_value_error_witness :
    geoFilter ["km"] trivialWithin
        [("from", "i am not numeric,10.739370"), ("km", "1")] personsData =
      .error (.valueError
        "Cannot convert `from=latitude,longitude` query parameter to float values.") ∧
    parseBoost [("boost", "bruno,i am not numeric!")] =
      .error (.valueError
        ("Cannot convert boost to float value. " ++
          "Make sure to provide a numerical boost value.")) :=
  ⟨non_numeric_params_raise_value_error.1 ["km"] trivialWithin
      [("from", "i am not numeric,10.739370"), ("km", "1")] personsData
      "i am not numeric,10.739370" "i am not numeric" (by decide) (by decide) (by decide),
    non_numeric_params_raise_value_error.2 [("boost", "bruno,i am not numeric!")]
      "bruno,i am not numeric!" "bruno" "i am not numeric!" (by decide) (by decide)
      (by decide)⟩

/-- Claim C10, counterexample: the claim says a request supplying `from` but
no distance-unit parameter "never raises an error", but a `from` value with a
non-numeric coordinate component raises a `ValueError` even though no
distance unit is supplied (the spec's error-handling section makes malformed
coordinates surface as value errors unconditionally). -/
theorem from_without_unit_can_raise :
    geoFilter ["km"] trivialWithin [("from", "i am not numeric,10.739370")] personsData =
      .error (.valueError
        "Cannot convert `from=latitude,longitude` query parameter to float values.") := by
  decide

/-- Claim C10 (amended): a geospatial filter request that supplies a
well-formed (numeric) `from` coordinate parameter but no distance-unit
parameter applies no distance restriction at all: the entire data set is
returned unchanged and no error is raised. -/
theorem numeric_from_without_unit_returns_all (units : List String)
    (within : List String → List (String × String) → Result → Bool)
    (params : List (String × String)) (data : List Result) (fv : String)
    (hfrom : params.lookup "from" = some fv)
    (hnum : (pySplit fv ",").all isFloatString = true)
    (hnounit : params.filter (fun kv => units.contains kv.1) = []) :
    geoFilter units within params data = .ok data := by
  simp only [geoFilter, hfrom]
  rw [hnounit]
  simp [hnum]

/-- Witness for the amended C10, at the test-suite's input
`from=59.923396,10.739370` with no distance-unit parameter. -/
theorem numeric_from_without_unit_returns_all_witness :
    geoFilter ["km"] trivialWithin [("from", "59.923396,10.739370")] personsData =
      .ok personsData :=
  numeric_from_without_unit_returns_all ["km"] trivialWithin
    [("from", "59.923396,10.739370")] personsData "59.923396,10.739370"
    (by decide) (by decide) (by decide)

/-- Claim C8: the viewset exposes a GET detail sub-route at url_path
`more-like-this` (hence pattern `{prefix}/{pk}/more-like-this/`), and its
response body is the serialized more-like-this results computed from the
filtered queryset for the object identified by `pk`: a paginated response of
the serialized page when the paginator yields one, and a plain response of
the serialized more-like-this queryset otherwise. -/
theorem more_like_this_route_behaviour {α σ : Type}
    (filter_queryset : List α → List α) (get_queryset : List α)
    (mlt : List α → α → List α) (get_object : SearchHit α)
    (paginate_queryset : List α → Option (List α)) (serialize : List α → σ) :
    moreLikeThisRoute = ⟨["get"], "more-like-this", true⟩ ∧
    (∀ page, paginate_queryset (mlt (filter_queryset get_queryset) get_object.object) =
        some page →
      more_like_this filter_queryset get_queryset mlt get_object paginate_queryset
          serialize = .paginated (serialize page)) ∧
    (paginate_queryset (mlt (filter_queryset get_queryset) get_object.object) = none →
      more_like_this filter_queryset get_queryset mlt get_object paginate_queryset
          serialize =
        .plain (serialize (mlt (filter_queryset get_queryset) get_object.object))) := by
  refine ⟨rfl, fun page hp => ?_, fun hn => ?_⟩
  · simp [more_like_this, hp]
  · simp [more_like_this, hn]

/-- Witness for C8, with concrete collaborators: a paginator that yields a
one-element page produces a paginated response of that page, and a paginator
that yields no page produces a plain response of the whole more-like-this
queryset. -/
theorem more_like_this_route_behaviour_witness :
    more_like_this id [1, 2] (fun qs o => qs ++ [o]) (⟨5⟩ : SearchHit Nat)
        (fun l => some (l.take 1)) id = .paginated [1] ∧
    more_like_this id [1, 2] (fun qs o => qs ++ [o]) (⟨5⟩ : SearchHit Nat)
        (fun _ => none) id = .plain [1, 2, 5] :=
  ⟨(more_like_this_route_behaviour id [1, 2] (fun qs o => qs ++ [o]) ⟨5⟩
        (fun l => some (l.take 1)) id).2.1 [1] rfl,
    (more_like_this_route_behaviour id [1, 2] (fun qs o => qs ++ [o]) ⟨5⟩
        (fun _ => none) id).2.2 rfl⟩

end DrfHaystack
